import Mathlib

/-!
Verification of the savings projection engine of the Taxora repository
(`src/pages/2_💰_Savings_Planner.py`, function `calculate_savings_projection`).

The engine is a pure function from a goal specification (target amount,
monthly contribution, start date, target date) to a projection result
(month count, cumulative total, shortfall, required monthly contribution,
a month-by-month timeline, and a success rate).  We embed it shallowly:
monetary values become exact rationals, Python `date` becomes a record of
year/month/day integers, and the accumulation loop becomes a fold over
`List.range`.
-/

namespace Taxora

/-- Embedding of Python `datetime.date`: a record of year, month and
day-of-month, each an integer. -/
structure PyDate where
  year : Int
  month : Int
  day : Int
deriving Repr, DecidableEq

/-- A structurally valid calendar date as Python's `date` type enforces:
month between 1 and 12, day between 1 and 31. -/
def PyDate.Valid (d : PyDate) : Prop :=
  1 ≤ d.month ∧ d.month ≤ 12 ∧ 1 ≤ d.day ∧ d.day ≤ 31

instance (d : PyDate) : Decidable d.Valid := by
  unfold PyDate.Valid
  infer_instance

/-- Python date comparison `a <= b`: lexicographic on (year, month, day). -/
def PyDate.leb (a b : PyDate) : Bool :=
  a.year < b.year ||
    (a.year = b.year &&
      (a.month < b.month || (a.month = b.month && a.day ≤ b.day)))

/-- Line 38 of the source: the raw whole-month difference
`(target_date.year - start_date.year) * 12 + (target_date.month - start_date.month)`. -/
def monthsDiff (start_date target_date : PyDate) : Int :=
  (target_date.year - start_date.year) * 12 + (target_date.month - start_date.month)

/-- One entry of the `projection` list built by the loop on lines 48-56:
the dict `{'month': ..., 'amount': ..., 'target_line': ...}`. -/
structure ProjectionEntry where
  month : Nat
  amount : ℚ
  target_line : ℚ
deriving Repr, DecidableEq

/-- The dict returned by `calculate_savings_projection` (lines 58-65). -/
structure ProjectionResult where
  months_to_target : Int
  total_saved : ℚ
  shortfall : ℚ
  required_monthly : ℚ
  projection : List ProjectionEntry
  success_rate : ℚ
deriving Repr, DecidableEq

/-- The accumulation loop of lines 47-56: starting from an empty list and
`current_amount = 0`, for each `month in range(n)` append an entry holding
the current amount and the target-line value at that month, then add the
monthly saving to the accumulator.  Returns the built list together with
the final accumulator value. -/
def projectionLoop (monthly_saving : ℚ) (target_line : Nat → ℚ) (n : Nat) :
    List ProjectionEntry × ℚ :=
  (List.range n).foldl
    (fun acc month =>
      (acc.1 ++ [⟨month, acc.2, target_line month⟩], acc.2 + monthly_saving))
    ([], 0)

/-- Shallow embedding of `calculate_savings_projection` (lines 36-65 of the
source), with monetary quantities as exact rationals. -/
def calculate_savings_projection (target_amount monthly_saving : ℚ)
    (start_date target_date : PyDate) : ProjectionResult :=
  let m0 := monthsDiff start_date target_date
  let months_to_target : Int := if m0 ≤ 0 then 1 else m0
  let total_saved := monthly_saving * (months_to_target : ℚ)
  let shortfall := max 0 (target_amount - total_saved)
  let required_monthly :=
    if 0 < months_to_target then target_amount / (months_to_target : ℚ) else 0
  let projection :=
    (projectionLoop monthly_saving
      (fun month =>
        if 0 < months_to_target then
          (target_amount / (months_to_target : ℚ)) * (month : ℚ)
        else 0)
      (months_to_target.toNat + 1)).1
  { months_to_target := months_to_target
    total_saved := total_saved
    shortfall := shortfall
    required_monthly := required_monthly
    projection := projection
    success_rate :=
      if 0 < target_amount then
        min 100 ((total_saved / target_amount) * 100)
      else 0 }

/-! Helper lemmas characterising each field of the result. -/

theorem projectionLoop_eq (ms : ℚ) (tl : Nat → ℚ) (n : Nat) :
    projectionLoop ms tl n =
      ((List.range n).map (fun month => ⟨month, ms * (month : ℚ), tl month⟩),
        ms * (n : ℚ)) := by
  induction n with
  | zero => simp [projectionLoop]
  | succ k ih =>
    have hstep : projectionLoop ms tl (k + 1) =
        ((projectionLoop ms tl k).1 ++
            [⟨k, (projectionLoop ms tl k).2, tl k⟩],
          (projectionLoop ms tl k).2 + ms) := by
      unfold projectionLoop
      rw [List.range_succ, List.foldl_append]
      simp
    rw [hstep, ih]
    refine Prod.ext ?_ ?_
    · simp [List.range_succ]
    · push_cast
      ring

theorem calc_months_eq (ta ms : ℚ) (s t : PyDate) :
    (calculate_savings_projection ta ms s t).months_to_target =
      if monthsDiff s t ≤ 0 then 1 else monthsDiff s t := rfl

theorem calc_months_pos (ta ms : ℚ) (s t : PyDate) :
    0 < (calculate_savings_projection ta ms s t).months_to_target := by
  rw [calc_months_eq]
  split <;> omega

theorem calc_total_saved_eq (ta ms : ℚ) (s t : PyDate) :
    (calculate_savings_projection ta ms s t).total_saved =
      ms * ((calculate_savings_projection ta ms s t).months_to_target : ℚ) := rfl

theorem calc_shortfall_eq (ta ms : ℚ) (s t : PyDate) :
    (calculate_savings_projection ta ms s t).shortfall =
      max 0 (ta - (calculate_savings_projection ta ms s t).total_saved) := rfl

theorem calc_required_monthly_eq (ta ms : ℚ) (s t : PyDate) :
    (calculate_savings_projection ta ms s t).required_monthly =
      ta / ((calculate_savings_projection ta ms s t).months_to_target : ℚ) := by
  show (if 0 < (calculate_savings_projection ta ms s t).months_to_target then
      ta / ((calculate_savings_projection ta ms s t).months_to_target : ℚ) else 0) = _
  rw [if_pos (calc_months_pos ta ms s t)]

theorem calc_success_rate_eq (ta ms : ℚ) (s t : PyDate) :
    (calculate_savings_projection ta ms s t).success_rate =
      if 0 < ta then
        min 100 (((calculate_savings_projection ta ms s t).total_saved / ta) * 100)
      else 0 := rfl

theorem calc_projection_eq (ta ms : ℚ) (s t : PyDate) :
    (calculate_savings_projection ta ms s t).projection =
      (List.range
          ((calculate_savings_projection ta ms s t).months_to_target.toNat + 1)).map
        (fun month =>
          ⟨month, ms * (month : ℚ),
            (ta / ((calculate_savings_projection ta ms s t).months_to_target : ℚ)) *
              (month : ℚ)⟩) := by
  have hpos := calc_months_pos ta ms s t
  show (projectionLoop ms
      (fun month =>
        if 0 < (calculate_savings_projection ta ms s t).months_to_target then
          (ta / ((calculate_savings_projection ta ms s t).months_to_target : ℚ)) *
            (month : ℚ)
        else 0)
      ((calculate_savings_projection ta ms s t).months_to_target.toNat + 1)).1 = _
  rw [projectionLoop_eq]
  simp only [if_pos hpos]

theorem calc_projection_length (ta ms : ℚ) (s t : PyDate) :
    (calculate_savings_projection ta ms s t).projection.length =
      (calculate_savings_projection ta ms s t).months_to_target.toNat + 1 := by
  rw [calc_projection_eq]
  simp

theorem calc_day_irrelevant (ta ms : ℚ) (s t : PyDate) (ds dt : Int) :
    calculate_savings_projection ta ms ⟨s.year, s.month, ds⟩ ⟨t.year, t.month, dt⟩ =
      calculate_savings_projection ta ms s t := rfl

/-- C1: for every goal, `months_to_target` equals the raw month difference
`(target.year - start.year) * 12 + (target.month - start.month)` when that
difference is positive, and `1` when it is zero or negative; and the
day-of-month fields of both dates have no effect on the result. -/
theorem C1_months_to_target (ta ms : ℚ) (s t : PyDate) :
    (0 < monthsDiff s t →
        (calculate_savings_projection ta ms s t).months_to_target = monthsDiff s t) ∧
    (monthsDiff s t ≤ 0 →
        (calculate_savings_projection ta ms s t).months_to_target = 1) ∧
    (∀ ds dt : Int,
        calculate_savings_projection ta ms ⟨s.year, s.month, ds⟩ ⟨t.year, t.month, dt⟩ =
          calculate_savings_projection ta ms s t) := by
  refine ⟨?_, ?_, fun ds dt => calc_day_irrelevant ta ms s t ds dt⟩
  · intro h
    rw [calc_months_eq, if_neg (by omega)]
  · intro h
    rw [calc_months_eq, if_pos h]

theorem C1_months_to_target_witness :
    0 < monthsDiff ⟨2024, 1, 1⟩ ⟨2024, 11, 15⟩ ∧
      (calculate_savings_projection 100000 10000 ⟨2024, 1, 1⟩
          ⟨2024, 11, 15⟩).months_to_target =
        monthsDiff ⟨2024, 1, 1⟩ ⟨2024, 11, 15⟩ :=
  ⟨by decide,
    (C1_months_to_target 100000 10000 ⟨2024, 1, 1⟩ ⟨2024, 11, 15⟩).1 (by decide)⟩

/-- C2: the projection list has exactly `months_to_target + 1` entries, the
entry at position `i` carries month index `i`, the entry at position `0`
has cumulative amount `0`, and each later entry's cumulative amount is the
previous entry's amount plus the monthly contribution. -/
theorem C2_timeline_shape (ta ms : ℚ) (s t : PyDate) :
    ((calculate_savings_projection ta ms s t).projection.length : ℤ) =
        (calculate_savings_projection ta ms s t).months_to_target + 1 ∧
    (∀ i : ℕ, i < (calculate_savings_projection ta ms s t).projection.length →
        ((calculate_savings_projection ta ms s t).projection.getD i
            ⟨0, 0, 0⟩).month = i) ∧
    ((calculate_savings_projection ta ms s t).projection.getD 0 ⟨0, 0, 0⟩).amount
        = 0 ∧
    (∀ i : ℕ,
        i + 1 < (calculate_savings_projection ta ms s t).projection.length →
        ((calculate_savings_projection ta ms s t).projection.getD (i + 1)
            ⟨0, 0, 0⟩).amount =
          ((calculate_savings_projection ta ms s t).projection.getD i
              ⟨0, 0, 0⟩).amount + ms) := by
  have hpos := calc_months_pos ta ms s t
  refine ⟨?_, ?_, ?_, ?_⟩
  · rw [calc_projection_length]
    push_cast [Int.toNat_of_nonneg hpos.le]
    ring
  · intro i hi
    rw [calc_projection_length] at hi
    simp [calc_projection_eq, List.getD_eq_getElem?_getD, List.getElem?_map,
      List.getElem?_range, hi]
  · simp [calc_projection_eq, List.getD_eq_getElem?_getD, List.getElem?_map,
      List.getElem?_range]
  · intro i hi
    rw [calc_projection_length] at hi
    simp [calc_projection_eq, List.getD_eq_getElem?_getD, List.getElem?_map,
      List.getElem?_range, hi, Nat.lt_of_succ_lt hi]
    ring

theorem C2_timeline_shape_witness :
    3 + 1 <
      (calculate_savings_projection 100000 10000 ⟨2024, 1, 1⟩
          ⟨2024, 11, 1⟩).projection.length ∧
    ((calculate_savings_projection 100000 10000 ⟨2024, 1, 1⟩
          ⟨2024, 11, 1⟩).projection.getD (3 + 1) ⟨0, 0, 0⟩).amount =
      ((calculate_savings_projection 100000 10000 ⟨2024, 1, 1⟩
          ⟨2024, 11, 1⟩).projection.getD 3 ⟨0, 0, 0⟩).amount + 10000 :=
  ⟨by decide,
    (C2_timeline_shape 100000 10000 ⟨2024, 1, 1⟩ ⟨2024, 11, 1⟩).2.2.2 3 (by decide)⟩

/-- C3: `total_saved` equals monthly contribution times the post-clamp
`months_to_target`, and equals the cumulative amount of the timeline entry
at index `months_to_target`, which is the last entry. -/
theorem C3_total_saved (ta ms : ℚ) (s t : PyDate) :
    (calculate_savings_projection ta ms s t).total_saved =
        ms * ((calculate_savings_projection ta ms s t).months_to_target : ℚ) ∧
    ((calculate_savings_projection ta ms s t).projection.getD
          (calculate_savings_projection ta ms s t).months_to_target.toNat
          ⟨0, 0, 0⟩).amount =
        (calculate_savings_projection ta ms s t).total_saved ∧
    ((calculate_savings_projection ta ms s t).projection.getLastD
          ⟨0, 0, 0⟩).amount =
        (calculate_savings_projection ta ms s t).total_saved := by
  have hpos := calc_months_pos ta ms s t
  have hq : ((calculate_savings_projection ta ms s t).months_to_target.toNat : ℚ) =
      ((calculate_savings_projection ta ms s t).months_to_target : ℚ) := by
    exact_mod_cast congrArg (fun z : ℤ => (z : ℚ)) (Int.toNat_of_nonneg hpos.le)
  have hlast :
      (calculate_savings_projection ta ms s t).projection.getLastD ⟨0, 0, 0⟩ =
        (calculate_savings_projection ta ms s t).projection.getD
          (calculate_savings_projection ta ms s t).months_to_target.toNat
          ⟨0, 0, 0⟩ := by
    rw [calc_projection_eq, List.range_succ, List.map_append]
    simp
  refine ⟨rfl, ?_, ?_⟩
  · rw [calc_total_saved_eq]
    simp [calc_projection_eq, List.getD_eq_getElem?_getD, List.getElem?_map,
      List.getElem?_range, hq, mul_comm]
  · rw [hlast, calc_total_saved_eq]
    simp [calc_projection_eq, List.getD_eq_getElem?_getD, List.getElem?_map,
      List.getElem?_range, hq, mul_comm]

/-- C4: `shortfall` equals `max 0 (target_amount - total_saved)` and is
never negative: a surplus shows up as a shortfall of `0`. -/
theorem C4_shortfall (ta ms : ℚ) (s t : PyDate) :
    (calculate_savings_projection ta ms s t).shortfall =
        max 0 (ta - (calculate_savings_projection ta ms s t).total_saved) ∧
    0 ≤ (calculate_savings_projection ta ms s t).shortfall :=
  ⟨rfl, le_max_left 0 _⟩

/-- C5: for non-negative target and contribution, `success_rate` equals
`min 100 (total_saved / target_amount * 100)` when the target is positive,
equals `0` when the target is `0`, and always lies in `[0, 100]`. -/
theorem C5_success_rate (ta ms : ℚ) (s t : PyDate) (hta : 0 ≤ ta) (hms : 0 ≤ ms) :
    (0 < ta →
        (calculate_savings_projection ta ms s t).success_rate =
          min 100
            ((calculate_savings_projection ta ms s t).total_saved / ta * 100)) ∧
    (ta = 0 → (calculate_savings_projection ta ms s t).success_rate = 0) ∧
    0 ≤ (calculate_savings_projection ta ms s t).success_rate ∧
    (calculate_savings_projection ta ms s t).success_rate ≤ 100 := by
  have hts : 0 ≤ (calculate_savings_projection ta ms s t).total_saved := by
    rw [calc_total_saved_eq]
    exact mul_nonneg hms (by exact_mod_cast (calc_months_pos ta ms s t).le)
  have hsr := calc_success_rate_eq ta ms s t
  refine ⟨fun h => by rw [hsr, if_pos h],
    fun h => by rw [hsr, if_neg (by simp [h])], ?_, ?_⟩
  · rw [hsr]
    split_ifs with h
    · exact le_min (by norm_num)
        (mul_nonneg (div_nonneg hts h.le) (by norm_num))
    · exact le_refl 0
  · rw [hsr]
    split_ifs with h
    · exact min_le_left _ _
    · norm_num

theorem C5_success_rate_witness :
    ((0 : ℚ) ≤ 150000 ∧ (0 : ℚ) ≤ 8000) ∧
      0 ≤ (calculate_savings_projection 150000 8000 ⟨2024, 1, 1⟩
              ⟨2024, 7, 1⟩).success_rate ∧
        (calculate_savings_projection 150000 8000 ⟨2024, 1, 1⟩
            ⟨2024, 7, 1⟩).success_rate ≤ 100 :=
  ⟨⟨by norm_num, by norm_num⟩,
    (C5_success_rate 150000 8000 ⟨2024, 1, 1⟩ ⟨2024, 7, 1⟩ (by norm_num)
        (by norm_num)).2.2⟩

/-- C6: when the target date is earlier than or equal to the start date under
full calendar comparison (year, month, day), the month count is clamped to
exactly `1` and the projection is a well-formed one-period timeline of two
entries rather than a failure. -/
theorem C6_past_target_date (ta ms : ℚ) (s t : PyDate)
    (hs : s.Valid) (ht : t.Valid) (hle : PyDate.leb t s = true) :
    (calculate_savings_projection ta ms s t).months_to_target = 1 ∧
    (calculate_savings_projection ta ms s t).projection.length = 2 := by
  obtain ⟨hs1, hs2, -, -⟩ := hs
  obtain ⟨ht1, ht2, -, -⟩ := ht
  have hdiff : monthsDiff s t ≤ 0 := by
    unfold PyDate.leb at hle
    simp only [Bool.or_eq_true, Bool.and_eq_true, decide_eq_true_eq] at hle
    unfold monthsDiff
    omega
  have h1 : (calculate_savings_projection ta ms s t).months_to_target = 1 := by
    rw [calc_months_eq, if_pos hdiff]
  refine ⟨h1, ?_⟩
  rw [calc_projection_length, h1]
  rfl

theorem C6_past_target_date_witness :
    (PyDate.Valid ⟨2024, 6, 1⟩ ∧ PyDate.Valid ⟨2024, 1, 1⟩ ∧
        PyDate.leb ⟨2024, 1, 1⟩ ⟨2024, 6, 1⟩ = true) ∧
      (calculate_savings_projection 50000 5000 ⟨2024, 6, 1⟩
          ⟨2024, 1, 1⟩).months_to_target = 1 :=
  ⟨⟨by decide, by decide, by decide⟩,
    (C6_past_target_date 50000 5000 ⟨2024, 6, 1⟩ ⟨2024, 1, 1⟩ (by decide)
        (by decide) (by decide)).1⟩

/-- C7: `required_monthly` equals `target_amount / months_to_target`, so
multiplying it back by `months_to_target` recovers the target exactly; the
target-line value of entry `i` is `(target_amount / months_to_target) * i`,
and at the final index `months_to_target` it equals the target exactly. -/
theorem C7_required_monthly (ta ms : ℚ) (s t : PyDate) :
    (calculate_savings_projection ta ms s t).required_monthly =
        ta / ((calculate_savings_projection ta ms s t).months_to_target : ℚ) ∧
    (calculate_savings_projection ta ms s t).required_monthly *
        ((calculate_savings_projection ta ms s t).months_to_target : ℚ) = ta ∧
    (∀ i : ℕ, i < (calculate_savings_projection ta ms s t).projection.length →
        ((calculate_savings_projection ta ms s t).projection.getD i
            ⟨0, 0, 0⟩).target_line =
          ta / ((calculate_savings_projection ta ms s t).months_to_target : ℚ) *
            (i : ℚ)) ∧
    ((calculate_savings_projection ta ms s t).projection.getD
          (calculate_savings_projection ta ms s t).months_to_target.toNat
          ⟨0, 0, 0⟩).target_line = ta := by
  have hpos := calc_months_pos ta ms s t
  have hne : ((calculate_savings_projection ta ms s t).months_to_target : ℚ) ≠ 0 := by
    exact_mod_cast hpos.ne.symm
  have hq : ((calculate_savings_projection ta ms s t).months_to_target.toNat : ℚ) =
      ((calculate_savings_projection ta ms s t).months_to_target : ℚ) := by
    exact_mod_cast congrArg (fun z : ℤ => (z : ℚ)) (Int.toNat_of_nonneg hpos.le)
  refine ⟨calc_required_monthly_eq ta ms s t, ?_, ?_, ?_⟩
  · rw [calc_required_monthly_eq]
    exact div_mul_cancel₀ ta hne
  · intro i hi
    rw [calc_projection_length] at hi
    simp [calc_projection_eq, List.getD_eq_getElem?_getD, List.getElem?_map,
      List.getElem?_range, hi]
  · simp [calc_projection_eq, List.getD_eq_getElem?_getD, List.getElem?_map,
      List.getElem?_range, hq]
    rw [div_mul_cancel₀ ta hne]

theorem C7_required_monthly_witness :
    5 < (calculate_savings_projection 100000 10000 ⟨2024, 1, 1⟩
            ⟨2024, 11, 1⟩).projection.length ∧
      ((calculate_savings_projection 100000 10000 ⟨2024, 1, 1⟩
            ⟨2024, 11, 1⟩).projection.getD 5 ⟨0, 0, 0⟩).target_line =
        100000 /
            ((calculate_savings_projection 100000 10000 ⟨2024, 1, 1⟩
                ⟨2024, 11, 1⟩).months_to_target : ℚ) * (5 : ℚ) :=
  ⟨by decide,
    (C7_required_monthly 100000 10000 ⟨2024, 1, 1⟩ ⟨2024, 11, 1⟩).2.2.1 5
      (by decide)⟩

/-- C8: a zero target amount yields `success_rate = 0`, `shortfall = 0` and
`required_monthly = 0`, and both division guards hold: the divisor
`months_to_target` is positive (so the defensive `else` branches for the
`required_monthly` and target-line divisions are unreachable), and the
division by `target_amount` takes its guarded zero branch. -/
theorem C8_zero_target (ta ms : ℚ) (s t : PyDate) (hta : ta = 0) (hms : 0 ≤ ms) :
    (calculate_savings_projection ta ms s t).success_rate = 0 ∧
    (calculate_savings_projection ta ms s t).shortfall = 0 ∧
    (calculate_savings_projection ta ms s t).required_monthly = 0 ∧
    0 < (calculate_savings_projection ta ms s t).months_to_target := by
  subst hta
  have hpos := calc_months_pos 0 ms s t
  have hts : 0 ≤ (calculate_savings_projection 0 ms s t).total_saved := by
    rw [calc_total_saved_eq]
    exact mul_nonneg hms (by exact_mod_cast hpos.le)
  refine ⟨?_, ?_, ?_, hpos⟩
  · rw [calc_success_rate_eq, if_neg (by simp)]
  · rw [calc_shortfall_eq]
    exact max_eq_left (by linarith)
  · rw [calc_required_monthly_eq, zero_div]

theorem C8_zero_target_witness :
    ((0 : ℚ) = 0 ∧ (0 : ℚ) ≤ 1000) ∧
      (calculate_savings_projection 0 1000 ⟨2024, 1, 1⟩
          ⟨2024, 7, 1⟩).success_rate = 0 :=
  ⟨⟨rfl, by norm_num⟩,
    (C8_zero_target 0 1000 ⟨2024, 1, 1⟩ ⟨2024, 7, 1⟩ rfl (by norm_num)).1⟩

/-- C9: any non-positive target amount takes the guarded branch of the
success-rate computation and yields `success_rate = 0`; in particular a
negative target behaves exactly like a zero target. -/
theorem C9_nonpos_target (ta ms : ℚ) (s t : PyDate) (hta : ta ≤ 0) :
    (calculate_savings_projection ta ms s t).success_rate = 0 := by
  rw [calc_success_rate_eq, if_neg (not_lt.mpr hta)]

theorem C9_nonpos_target_witness :
    (-5 : ℚ) ≤ 0 ∧
      (calculate_savings_projection (-5) 1000 ⟨2024, 1, 1⟩
          ⟨2024, 7, 1⟩).success_rate = 0 :=
  ⟨by norm_num,
    C9_nonpos_target (-5) 1000 ⟨2024, 1, 1⟩ ⟨2024, 7, 1⟩ (by norm_num)⟩

/-- C10: for a positive target and non-negative contribution, the shortfall
is zero exactly when the success rate is `100`. -/
theorem C10_shortfall_iff_success (ta ms : ℚ) (s t : PyDate)
    (hta : 0 < ta) (hms : 0 ≤ ms) :
    ((calculate_savings_projection ta ms s t).shortfall = 0 ↔
      (calculate_savings_projection ta ms s t).success_rate = 100) := by
  have hts : 0 ≤ (calculate_savings_projection ta ms s t).total_saved := by
    rw [calc_total_saved_eq]
    exact mul_nonneg hms (by exact_mod_cast (calc_months_pos ta ms s t).le)
  rw [calc_shortfall_eq, calc_success_rate_eq, if_pos hta, max_eq_left_iff,
    min_eq_left_iff, div_mul_eq_mul_div, le_div_iff₀ hta]
  constructor
  · intro h
    linarith
  · intro h
    linarith

theorem C10_shortfall_iff_success_witness :
    ((0 : ℚ) < 100000 ∧ (0 : ℚ) ≤ 10000) ∧
      ((calculate_savings_projection 100000 10000 ⟨2024, 1, 1⟩
            ⟨2024, 11, 1⟩).shortfall = 0 ↔
        (calculate_savings_projection 100000 10000 ⟨2024, 1, 1⟩
            ⟨2024, 11, 1⟩).success_rate = 100) :=
  ⟨⟨by norm_num, by norm_num⟩,
    C10_shortfall_iff_success 100000 10000 ⟨2024, 1, 1⟩ ⟨2024, 11, 1⟩
      (by norm_num) (by norm_num)⟩

end Taxora
